import Mathlib

/-!
Verification of the `Figure` data model of `bqplot/figure.py`.

The source file declares a synchronized attribute bag with thirteen
fields.  The field list, the default values, the `allow_none` flags, the
`CFloat` / `Float` distinction and the `legend_location` enumeration are
translated directly from the trait declarations in the source.  The
surrounding machinery (`create`, `set`, validation, change notification)
is provided by the external traitlets framework, which is not part of
this repository; those operations are modelled from the specification
and each such definition is marked `Modelled from the spec:` in its doc
comment.  Floating-point trait values carry no arithmetic here (they are
only stored, compared and cast from integers), so they are embedded as
rationals.
-/

namespace BqplotFigure

/-- Kind tag for a scale object.  The source constructs `LinearScale`
instances in `_scale_x_default` / `_scale_y_default`; any other `Scale`
subtype supplied externally is collapsed to `other`. -/
inductive ScaleKind where
  | linear
  | other
deriving DecidableEq, Repr

/-- Modelled from the spec: a `Scale` object reference.  The `Scale`
class itself is external to the excerpt; the spec describes the default
scales as linear scales with a numeric domain, and distinct instances
must not share identity, so each object carries an allocation id. -/
structure ScaleObj where
  id : Nat
  kind : ScaleKind
  dmin : ℚ
  dmax : ℚ
deriving DecidableEq, Repr

/-- Value stored under one key of a `fig_margin` mapping.  Margin
values in the source default are Python ints (`dict(top=60, ...)`);
invalid mappings may carry non-numeric entries. -/
inductive MVal where
  | int (n : Int)
  | float (q : ℚ)
  | str (s : String)
  | boolV (b : Bool)
  | null
deriving DecidableEq, Repr

/-- A margin entry is numeric when it is an int or a float. -/
def MVal.isNumeric : MVal → Bool
  | .int _ => true
  | .float _ => true
  | _ => false

/-- The four required margin keys of `fig_margin`, from the source
default `dict(top=60, bottom=60, left=60, right=60)`. -/
def marginKeys : List String := ["top", "bottom", "left", "right"]

/-- Modelled from the spec: `fig_margin` must be a mapping holding each
of the four required keys with a numeric value (the `Dict` trait's
declared constraint per the spec's error-handling section). -/
def marginValid (m : List (String × MVal)) : Bool :=
  marginKeys.all (fun k => m.any (fun p => p.1 = k)) &&
    m.all (fun p => p.2.isNumeric)

/-- The `legend_location` enumeration, translated from the `Enum`
trait declaration in the source. -/
def legendLocations : List String :=
  ["top-right", "top", "top-left", "left",
   "bottom-left", "bottom", "bottom-right", "right"]

/-- A runtime value that can be assigned to a field.  External `Axis`,
`Mark` and `Interaction` objects are opaque references modelled by
allocation ids. -/
inductive Value where
  | str (s : String)
  | int (n : Int)
  | float (q : ℚ)
  | boolV (b : Bool)
  | refList (xs : List Nat)
  | scale (sc : ScaleObj)
  | interactionRef (i : Nat)
  | mapping (m : List (String × MVal))
  | null
deriving DecidableEq, Repr

/-- The thirteen synchronized fields declared on the `Figure` class. -/
inductive Field where
  | title
  | axes
  | marks
  | interaction
  | scale_x
  | scale_y
  | min_width
  | min_height
  | preserve_aspect
  | fig_margin
  | padding_x
  | padding_y
  | legend_location
deriving DecidableEq, Repr

/-- Trait kind of a field declaration, as written in the source
(`Unicode`, `List`, `Instance`, `CFloat`, `Bool`, `Dict`, `Float`,
`Enum`). -/
inductive TraitKind where
  | unicode
  | listTrait
  | instanceTrait
  | cfloat
  | floatTrait
  | boolTrait
  | dictTrait
  | enumTrait
deriving DecidableEq, Repr

/-- Trait kind of each field, translated from the declarations in the
source (lines 92-113 of `figure.py`). -/
def traitOf : Field → TraitKind
  | .title => .unicode
  | .axes => .listTrait
  | .marks => .listTrait
  | .interaction => .instanceTrait
  | .scale_x => .instanceTrait
  | .scale_y => .instanceTrait
  | .min_width => .cfloat
  | .min_height => .cfloat
  | .preserve_aspect => .boolTrait
  | .fig_margin => .dictTrait
  | .padding_x => .floatTrait
  | .padding_y => .floatTrait
  | .legend_location => .enumTrait

/-- The figure state: one slot per declared trait.  `interaction` is
optional (`allow_none=True` in the source); `scale_x` and `scale_y`
always hold a scale object (required references per the spec). -/
structure FigureState where
  title : String
  axes : List Nat
  marks : List Nat
  interaction : Option Nat
  scale_x : ScaleObj
  scale_y : ScaleObj
  min_width : ℚ
  min_height : ℚ
  preserve_aspect : Bool
  fig_margin : List (String × MVal)
  padding_x : ℚ
  padding_y : ℚ
  legend_location : String
deriving DecidableEq, Repr

/-- Default `fig_margin` mapping, from the source declaration
`Dict(dict(top=60, bottom=60, left=60, right=60))`. -/
def defaultMargin : List (String × MVal) :=
  [("top", .int 60), ("bottom", .int 60),
   ("left", .int 60), ("right", .int 60)]

/-- `LinearScale(min=0, max=1)` as constructed by `_scale_x_default`
and `_scale_y_default` in the source; `c` is the fresh allocation id of
the new instance. -/
def linearScale (c : Nat) : ScaleObj :=
  { id := c, kind := .linear, dmin := 0, dmax := 1 }

/-- Modelled from the spec: the configuration overrides accepted by
`create`.  A `none` field means the option was omitted and receives its
documented default. -/
structure Overrides where
  title : Option String := .none
  axes : Option (List Nat) := .none
  marks : Option (List Nat) := .none
  interaction : Option Nat := .none
  scale_x : Option ScaleObj := .none
  scale_y : Option ScaleObj := .none
  min_width : Option ℚ := .none
  min_height : Option ℚ := .none
  preserve_aspect : Option Bool := .none
  fig_margin : Option (List (String × MVal)) := .none
  padding_x : Option ℚ := .none
  padding_y : Option ℚ := .none
  legend_location : Option String := .none
deriving DecidableEq, Repr

/-- Modelled from the spec: an override set is valid when the
constrained overrides satisfy their declared constraints (`fig_margin`
well-formed, `legend_location` in the enumeration). -/
def overridesValid (o : Overrides) : Bool :=
  (match o.fig_margin with
   | some m => marginValid m
   | none => true) &&
  (match o.legend_location with
   | some l => decide (l ∈ legendLocations)
   | none => true)

/-- Modelled from the spec: `create(overrides)` merges the supplied
overrides with the documented defaults.  Defaults are those of the
source trait declarations: title `""`, axes `[]`, marks `[]`,
interaction absent, min_width `800.0`, min_height `600.0`,
preserve_aspect `false`, fig_margin all-60, padding_x `0.0`, padding_y
`0.025`, legend_location `"top-right"`.  When a scale is omitted the
source's `_scale_x_default` / `_scale_y_default` lazily construct an
independent `LinearScale(min=0, max=1)`; `c` is the next free
allocation id. -/
def create (o : Overrides) (c : Nat) : FigureState :=
  { title := o.title.getD ""
    axes := o.axes.getD []
    marks := o.marks.getD []
    interaction := o.interaction
    scale_x := o.scale_x.getD (linearScale c)
    scale_y := o.scale_y.getD (linearScale (c + 1))
    min_width := o.min_width.getD 800
    min_height := o.min_height.getD 600
    preserve_aspect := o.preserve_aspect.getD false
    fig_margin := o.fig_margin.getD defaultMargin
    padding_x := o.padding_x.getD 0
    padding_y := o.padding_y.getD 0.025
    legend_location := o.legend_location.getD "top-right" }

/-- Error raised when a field assignment violates the field's declared
constraint; it records which field was being assigned. -/
structure ValidationError where
  field : Field
deriving DecidableEq, Repr

/-- Modelled from the spec: `create` rejects invalid overrides with a
ValidationError, otherwise builds the merged state. -/
def createChecked (o : Overrides) (c : Nat) :
    Except ValidationError FigureState :=
  if overridesValid o then .ok (create o c)
  else if (match o.fig_margin with
           | some m => marginValid m
           | none => true) then .error ⟨.legend_location⟩
  else .error ⟨.fig_margin⟩

/-- Read the current value of a field as a runtime value.  An absent
`interaction` reads as null. -/
def FigureState.get (s : FigureState) : Field → Value
  | .title => .str s.title
  | .axes => .refList s.axes
  | .marks => .refList s.marks
  | .interaction =>
      match s.interaction with
      | some i => .interactionRef i
      | none => .null
  | .scale_x => .scale s.scale_x
  | .scale_y => .scale s.scale_y
  | .min_width => .float s.min_width
  | .min_height => .float s.min_height
  | .preserve_aspect => .boolV s.preserve_aspect
  | .fig_margin => .mapping s.fig_margin
  | .padding_x => .float s.padding_x
  | .padding_y => .float s.padding_y
  | .legend_location => .str s.legend_location

/-- Modelled from the spec: per-field validation and storage.  Returns
the updated state when the value satisfies the field's declared
constraint, `none` otherwise.  Constraints follow the source
declarations: `axes`/`marks` are non-nullable lists, `interaction`
admits null (`allow_none=True`), `scale_x`/`scale_y` are required scale
references, `min_width`/`min_height` are casting floats (`CFloat`)
accepting any numeric value, `padding_x`/`padding_y` are plain floats
(`Float`), `fig_margin` must be a well-formed margin mapping, and
`legend_location` must belong to the fixed enumeration. -/
def applyField (s : FigureState) : Field → Value → Option FigureState
  | .title, .str t => some { s with title := t }
  | .axes, .refList xs => some { s with axes := xs }
  | .marks, .refList xs => some { s with marks := xs }
  | .interaction, .interactionRef i => some { s with interaction := some i }
  | .interaction, .null => some { s with interaction := none }
  | .scale_x, .scale sc => some { s with scale_x := sc }
  | .scale_y, .scale sc => some { s with scale_y := sc }
  | .min_width, .float q => some { s with min_width := q }
  | .min_width, .int n => some { s with min_width := (n : ℚ) }
  | .min_height, .float q => some { s with min_height := q }
  | .min_height, .int n => some { s with min_height := (n : ℚ) }
  | .preserve_aspect, .boolV b => some { s with preserve_aspect := b }
  | .fig_margin, .mapping m =>
      if marginValid m then some { s with fig_margin := m } else none
  | .padding_x, .float q => some { s with padding_x := q }
  | .padding_y, .float q => some { s with padding_y := q }
  | .legend_location, .str l =>
      if l ∈ legendLocations
      then some { s with legend_location := l } else none
  | _, _ => none

/-- One change notification: the field name, the value before the
assignment and the stored value after it. -/
structure ChangeEvent where
  field : Field
  oldVal : Value
  newVal : Value
deriving DecidableEq, Repr

/-- Result of a `set` call: the state after the call, the change events
it emitted, and the ValidationError when it failed. -/
structure SetResult where
  state : FigureState
  events : List ChangeEvent
  error : Option ValidationError
deriving DecidableEq, Repr

/-- Modelled from the spec: `set(field, value)` validates the value
against the field's declared constraint; on success it stores the value
and emits exactly one change event carrying the field, the old value
and the new stored value; on failure it raises a ValidationError and
leaves the state untouched. -/
def FigureState.set (s : FigureState) (f : Field) (v : Value) : SetResult :=
  match applyField s f v with
  | some s' => { state := s', events := [⟨f, s.get f, s'.get f⟩], error := none }
  | none => { state := s, events := [], error := some ⟨f⟩ }

/-- Modelled from the spec: a change event is delivered to every
registered observer in registration order. -/
def deliver (observers : List Nat) (e : ChangeEvent) :
    List (Nat × ChangeEvent) :=
  observers.map (fun o => (o, e))

/-- A sample override set used to instantiate the construction
theorem on a concrete input. -/
def sampleOverrides : Overrides :=
  { title := some "Revenue"
    min_width := some 500
    legend_location := some "left" }

/-- The margin mapping of the spec's example: top, bottom and left
present, the required key "right" missing. -/
def marginMissingRight : List (String × MVal) :=
  [("top", .int 10), ("bottom", .int 10), ("left", .int 10)]

/-- C1: for every set of valid configuration overrides,
`create(overrides)` succeeds and yields a state whose fields equal the
supplied overrides merged with the documented defaults: title "", axes
[], marks [], interaction absent, min_width 800.0, min_height 600.0,
preserve_aspect false, fig_margin all four margins 60, padding_x 0.0,
padding_y 0.025, legend_location "top-right". -/
theorem create_merges_overrides_with_defaults (o : Overrides) (c : Nat)
    (h : overridesValid o = true) :
    createChecked o c = .ok (create o c) ∧
    (create o c).title = o.title.getD "" ∧
    (create o c).axes = o.axes.getD [] ∧
    (create o c).marks = o.marks.getD [] ∧
    (create o c).interaction = o.interaction ∧
    (create o c).min_width = o.min_width.getD 800 ∧
    (create o c).min_height = o.min_height.getD 600 ∧
    (create o c).preserve_aspect = o.preserve_aspect.getD false ∧
    (create o c).fig_margin = o.fig_margin.getD defaultMargin ∧
    (create o c).padding_x = o.padding_x.getD 0 ∧
    (create o c).padding_y = o.padding_y.getD 0.025 ∧
    (create o c).legend_location = o.legend_location.getD "top-right" :=
  ⟨by simp [createChecked, h], rfl, rfl, rfl, rfl, rfl, rfl, rfl, rfl,
   rfl, rfl, rfl⟩

/-- Witness for C1: the sample overrides are valid, `createChecked`
accepts them, and the title override is stored. -/
theorem create_merges_overrides_with_defaults_witness :
    createChecked sampleOverrides 0 = .ok (create sampleOverrides 0) ∧
    (create sampleOverrides 0).title = "Revenue" := by
  have h := create_merges_overrides_with_defaults sampleOverrides 0 (by decide)
  exact ⟨h.1, h.2.1.trans rfl⟩

/-- C2: `create` with no overrides yields scale_x and scale_y as two
distinct linear-scale instances (distinct object identity), each with
domain minimum 0 and maximum 1. -/
theorem create_default_scales_distinct_linear_unit (c : Nat) :
    (create {} c).scale_x ≠ (create {} c).scale_y ∧
    (create {} c).scale_x.id ≠ (create {} c).scale_y.id ∧
    (create {} c).scale_x.kind = .linear ∧
    (create {} c).scale_x.dmin = 0 ∧ (create {} c).scale_x.dmax = 1 ∧
    (create {} c).scale_y.kind = .linear ∧
    (create {} c).scale_y.dmin = 0 ∧ (create {} c).scale_y.dmax = 1 := by
  have hid : (create {} c).scale_x.id ≠ (create {} c).scale_y.id := by
    simp only [create, linearScale, Option.getD]
    omega
  exact ⟨fun h => hid (congrArg ScaleObj.id h), hid,
    rfl, rfl, rfl, rfl, rfl, rfl⟩

/-- C3: setting fig_margin to a mapping missing any of the four keys
top, bottom, left, right, or containing a non-numeric value, fails with
a ValidationError. -/
theorem set_fig_margin_rejects_malformed (s : FigureState)
    (m : List (String × MVal))
    (h : (∃ k ∈ marginKeys, ∀ p ∈ m, p.1 ≠ k) ∨
         (∃ p ∈ m, p.2.isNumeric = false)) :
    (s.set .fig_margin (.mapping m)).error = some ⟨.fig_margin⟩ := by
  have hv : ¬ marginValid m = true := by
    simp only [marginValid, Bool.and_eq_true, List.all_eq_true,
      List.any_eq_true, decide_eq_true_eq]
    rintro ⟨hkeys, hnum⟩
    rcases h with ⟨k, hk, hm⟩ | ⟨p, hp, hq⟩
    · obtain ⟨p, hp, hpk⟩ := hkeys k hk
      exact hm p hp hpk
    · exact absurd (hnum p hp) (by simp [hq])
  have hv' : marginValid m = false := by
    cases hb : marginValid m
    · rfl
    · exact absurd hb hv
  simp [FigureState.set, applyField, hv']

/-- Witness for C3: setting fig_margin to the three-key mapping of the
spec's example (missing "right") fails with a ValidationError. -/
theorem set_fig_margin_rejects_malformed_witness :
    ((create {} 0).set .fig_margin (.mapping marginMissingRight)).error =
      some ⟨.fig_margin⟩ :=
  set_fig_margin_rejects_malformed (create {} 0) marginMissingRight
    (by decide)

/-- C4: setting legend_location succeeds exactly when the value is one
of the eight enumerated strings; in particular "top-right" succeeds and
"center" fails with a ValidationError. -/
theorem set_legend_location_iff_enumerated :
    (∀ (s : FigureState) (v : Value),
        (s.set .legend_location v).error = none ↔
          ∃ l, v = .str l ∧ l ∈ legendLocations) ∧
    ((create {} 0).set .legend_location (.str "top-right")).error = none ∧
    ((create {} 0).set .legend_location (.str "center")).error =
      some ⟨.legend_location⟩ := by
  refine ⟨?_, by decide, by decide⟩
  intro s v
  constructor
  · intro h
    match v with
    | .str l =>
        refine ⟨l, rfl, ?_⟩
        by_cases hc : l ∈ legendLocations
        · exact hc
        · simp [FigureState.set, applyField, hc] at h
    | .int _ => simp [FigureState.set, applyField] at h
    | .float _ => simp [FigureState.set, applyField] at h
    | .boolV _ => simp [FigureState.set, applyField] at h
    | .refList _ => simp [FigureState.set, applyField] at h
    | .scale _ => simp [FigureState.set, applyField] at h
    | .interactionRef _ => simp [FigureState.set, applyField] at h
    | .mapping _ => simp [FigureState.set, applyField] at h
    | .null => simp [FigureState.set, applyField] at h
  · rintro ⟨l, rfl, hl⟩
    simp [FigureState.set, applyField, hl]

/-- Witness for C4: "top-right" is accepted and "center" rejected on a
freshly created instance. -/
theorem set_legend_location_iff_enumerated_witness :
    ((create {} 0).set .legend_location (.str "top-right")).error = none ∧
    ((create {} 0).set .legend_location (.str "center")).error =
      some ⟨.legend_location⟩ :=
  ⟨set_legend_location_iff_enumerated.2.1,
   set_legend_location_iff_enumerated.2.2⟩

/-- C5: setting axes or marks to null fails with a ValidationError,
while setting them to the empty sequence succeeds and stores the empty
sequence, a value distinct from the null/absent value. -/
theorem set_axes_marks_null_vs_empty (s : FigureState) :
    (s.set .axes .null).error = some ⟨.axes⟩ ∧
    (s.set .marks .null).error = some ⟨.marks⟩ ∧
    ((s.set .axes (.refList [])).error = none ∧
      (s.set .axes (.refList [])).state.axes = []) ∧
    ((s.set .marks (.refList [])).error = none ∧
      (s.set .marks (.refList [])).state.marks = []) ∧
    Value.refList [] ≠ Value.null :=
  ⟨rfl, rfl, ⟨rfl, rfl⟩, ⟨rfl, rfl⟩, by decide⟩

/-- C6: scale_x and scale_y are never null: every state holds a scale
object in both slots, and setting either to null fails with a
ValidationError, so no reachable state has a null scale. -/
theorem scales_never_null :
    (∀ s : FigureState, s.get .scale_x ≠ .null ∧ s.get .scale_y ≠ .null) ∧
    (∀ s : FigureState,
      (s.set .scale_x .null).error = some ⟨.scale_x⟩ ∧
      (s.set .scale_y .null).error = some ⟨.scale_y⟩) :=
  ⟨fun s => ⟨by simp [FigureState.get], by simp [FigureState.get]⟩,
   fun _ => ⟨rfl, rfl⟩⟩

/-- C7: a failed `set` raises a ValidationError and leaves the state
unchanged, emitting no event. -/
theorem failed_set_leaves_state_unchanged (s : FigureState) (f : Field)
    (v : Value) (e : ValidationError)
    (h : (s.set f v).error = some e) :
    (s.set f v).state = s ∧ (s.set f v).events = [] := by
  cases happ : applyField s f v with
  | some s' => simp [FigureState.set, happ] at h
  | none => simp [FigureState.set, happ]

/-- Witness for C7: the failed assignment of "center" to
legend_location leaves the freshly created state unchanged. -/
theorem failed_set_leaves_state_unchanged_witness :
    ((create {} 0).set .legend_location (.str "center")).state =
      create {} 0 ∧
    ((create {} 0).set .legend_location (.str "center")).events = [] :=
  failed_set_leaves_state_unchanged (create {} 0) .legend_location
    (.str "center") ⟨.legend_location⟩ (by decide)

/-- C8: every successful `set` emits exactly one change event carrying
the field name, the old value and the new stored value; delivery
reaches every registered observer in registration order; and
`set("title", "Revenue")` on a fresh instance emits exactly one event
with old value "" and new value "Revenue". -/
theorem set_emits_single_ordered_event :
    (∀ (s : FigureState) (f : Field) (v : Value),
        (s.set f v).error = none →
        (s.set f v).events = [⟨f, s.get f, (s.set f v).state.get f⟩]) ∧
    (∀ (obs : List Nat) (e : ChangeEvent),
        (deliver obs e).map Prod.fst = obs ∧
        ∀ p ∈ deliver obs e, p.2 = e) ∧
    ((create {} 0).set .title (.str "Revenue")).error = none ∧
    ((create {} 0).set .title (.str "Revenue")).events =
      [⟨.title, .str "", .str "Revenue"⟩] := by
  refine ⟨?_, ?_, rfl, rfl⟩
  · intro s f v h
    cases happ : applyField s f v with
    | some s' => simp [FigureState.set, happ]
    | none => simp [FigureState.set, happ] at h
  · intro obs e
    refine ⟨by simp [deliver, Function.comp_def], ?_⟩
    intro p hp
    simp only [deliver, List.mem_map] at hp
    obtain ⟨o, _, rfl⟩ := hp
    rfl

/-- Witness for C8: the single event emitted by the title assignment on
a fresh instance, obtained from the general statement. -/
theorem set_emits_single_ordered_event_witness :
    ((create {} 0).set .title (.str "Revenue")).events =
      [⟨.title, .str "", .str "Revenue"⟩] := by
  have h := set_emits_single_ordered_event.1 (create {} 0) .title
    (.str "Revenue") rfl
  exact h.trans (by decide)

/-- Frame lemma: a successful validation-and-store touches only the
assigned field. -/
theorem applyField_frame {s s' : FigureState} {f : Field} {v : Value}
    (happ : applyField s f v = some s') :
    ∀ g : Field, g ≠ f → s'.get g = s.get g := by
  intro g hg
  cases f <;> cases v <;>
    simp only [applyField, Option.some.injEq] at happ <;>
    (try split at happ) <;>
    (try cases happ) <;>
    (try cases g <;> simp_all [FigureState.get])

/-- C9: a successful `set` modifies only the named field: every other
field reads the same value after the call as before it. -/
theorem set_modifies_only_named_field (s : FigureState) (f : Field)
    (v : Value) (h : (s.set f v).error = none) (g : Field) (hg : g ≠ f) :
    (s.set f v).state.get g = s.get g := by
  cases happ : applyField s f v with
  | some s' =>
      have : (s.set f v).state = s' := by simp [FigureState.set, happ]
      rw [this]
      exact applyField_frame happ g hg
  | none => simp [FigureState.set, happ] at h

/-- Witness for C9: after assigning the title on a fresh instance,
min_width reads unchanged. -/
theorem set_modifies_only_named_field_witness :
    ((create {} 0).set .title (.str "Revenue")).state.get .min_width =
      (create {} 0).get .min_width :=
  set_modifies_only_named_field (create {} 0) .title (.str "Revenue")
    rfl .min_width (by decide)

/-- C10: min_width and min_height are casting floats: assigning any
integer succeeds and stores its float coercion (500 becomes 500.0),
while padding_x and padding_y are declared as plain floats, a different
trait kind than the casting float. -/
theorem cfloat_casts_integers (s : FigureState) (n : Int) :
    ((s.set .min_width (.int n)).error = none ∧
      (s.set .min_width (.int n)).state.min_width = (n : ℚ)) ∧
    ((s.set .min_height (.int n)).error = none ∧
      (s.set .min_height (.int n)).state.min_height = (n : ℚ)) ∧
    traitOf .min_width = .cfloat ∧ traitOf .min_height = .cfloat ∧
    traitOf .padding_x = .floatTrait ∧ traitOf .padding_y = .floatTrait ∧
    TraitKind.cfloat ≠ TraitKind.floatTrait :=
  ⟨⟨rfl, rfl⟩, ⟨rfl, rfl⟩, rfl, rfl, rfl, rfl, by decide⟩

end BqplotFigure
